import Mathlib

/-!
Verification of the gold-price collection pipeline (`data_collector.py`,
`db_manager.py`, `nav_calculator.py`, `korean_investment_gold.py`,
`yahoo_finance_simple.py`).

Shallow embedding conventions:
* Python dictionaries whose values the embedded code reads are modelled as
  association lists `Dict := List (String × ℚ)` with the literal key strings
  of the source. Numeric values (Python floats/ints) are modelled as
  rationals `ℚ`. String-valued entries of the source dicts (the `timestamp`
  key the clients add) are never read by any of the embedded consumers and
  are omitted from the dicts.
* Reads of the wall clock (`get_korean_time()` and its renderings) are
  modelled as explicit `ℕ` parameters carrying the reading as an abstract
  instant. The rendered forms are fixed-width digit strings, so rendering
  is injective and monotone in the instant; in particular SQLite's bytewise
  comparison of the `created_at` TEXT column coincides with the order of
  the instants. The `created_at` value has second resolution
  (`strftime('%Y-%m-%d %H:%M:%S')`), so distinct wall-clock times within
  one second yield the *same* `created_at` instant.
* `round(x, 2)` is modelled as exact round-half-to-even on ℚ at two
  decimal places.
* Values bound to the SQL `INSERT` are modelled by `SqlVal`
  (`null` / `num` / `time`), with Python `None` mapping to `null`.
-/

/-- Association-list model of the Python dicts read by the pipeline. -/
def Dict := List (String × ℚ)

instance : DecidableEq Dict := by
  unfold Dict
  infer_instance

/-- `d.get(k)` — first binding of `k`, `None` when absent. -/
def Dict.get? : Dict → String → Option ℚ
  | [], _ => none
  | (k1, v) :: rest, k => if k1 = k then some v else Dict.get? rest k

/-- `d.get(k, dflt)`. -/
def Dict.getD (d : Dict) (k : String) (dflt : ℚ) : ℚ :=
  (d.get? k).getD dflt

/-- `d[k] = v` / `d.update({k: v})` for one key: replace the first binding
of `k`, or append a new binding. -/
def Dict.set : Dict → String → ℚ → Dict
  | [], k, v => [(k, v)]
  | (k1, v1) :: rest, k, v =>
      if k1 = k then (k, v) :: rest else (k1, v1) :: Dict.set rest k v

/-- Python truthiness of a `dict`-or-`None` value: `None` and the empty
dict are falsy, a non-empty dict is truthy. -/
def pyTruthy : Option Dict → Bool
  | none => false
  | some d => !d.isEmpty

/-! ### NAV calculator (`nav_calculator.py`) -/

/-- `NAVCalculator.gold_holding_per_cu` (line 20). -/
def gold_holding_per_cu : ℚ := 14000

/-- `NAVCalculator.total_shares` (line 21). -/
def total_shares : ℚ := 100000

/-- `NAVCalculator.nav_multiplier = gold_holding_per_cu / total_shares`
(line 22). -/
def nav_multiplier : ℚ := gold_holding_per_cu / total_shares

/-- Floor of a rational, computed on its normalised fields. -/
def ratFloor (x : ℚ) : ℤ := x.num.fdiv x.den

/-- Round-half-to-even to an integer, the semantics of Python `round`. -/
def roundHalfEven (x : ℚ) : ℤ :=
  let f := ratFloor x
  let r := x - mkRat f 1
  if r < 1/2 then f
  else if 1/2 < r then f + 1
  else if f % 2 = 0 then f else f + 1

/-- Python `round(x, 2)`: round-half-to-even at two decimal places. -/
def roundTo2 (x : ℚ) : ℚ := mkRat (roundHalfEven (x * 100)) 100

/-- Result dict of `NAVCalculator.calculate_nav`. The success branch also
carries a `calculation_formula` string rendering of the price; its exact
formatting is irrelevant to all consumers, so the rendering is abstracted
as `toString` of the price. `timestamp` is the wall-clock reading made by
the call itself (line 45 resp. 56). -/
structure NavResult where
  nav_value : ℚ
  gold_spot_price : ℚ
  calculation_formula : Option String
  calculation_status : String
  timestamp : ℕ
  deriving DecidableEq

/-- Status string of the unavailable branch (`nav_calculator.py` line 44),
"no gold spot price". -/
def statusUnavailable : String := "금현물 가격 없음"

/-- Status string of the success branch (`nav_calculator.py` line 55),
"calculation complete". -/
def statusOk : String := "계산 완료"

/-- `NAVCalculator.calculate_nav` (`nav_calculator.py` lines 29–68).
`now` is the wall-clock reading at the time of the call;
`gold_spot_price` is `none` when the caller passes `None`. The guard is
`not gold_spot_price or gold_spot_price <= 0`, i.e. `None`, `0`, and any
non-positive price all take the unavailable branch. -/
def calculate_nav (now : ℕ) (gold_spot_price : Option ℚ) : NavResult :=
  match gold_spot_price with
  | none =>
      { nav_value := 0, gold_spot_price := 0, calculation_formula := none
        calculation_status := statusUnavailable, timestamp := now }
  | some p =>
      if p ≤ 0 then
        { nav_value := 0, gold_spot_price := 0, calculation_formula := none
          calculation_status := statusUnavailable, timestamp := now }
      else
        { nav_value := roundTo2 (p * nav_multiplier)
          gold_spot_price := p
          calculation_formula := some (toString p)
          calculation_status := statusOk
          timestamp := now }

/-- The four per-source results assembled by `collect_all_data`
(`data_collector.py` lines 98–103): dict-or-`None` per source. -/
structure MarketData where
  domestic : Option Dict
  us_futures : Option Dict
  gold_spot : Option Dict
  usd_krw : Option Dict
  deriving DecidableEq

/-- `NAVCalculator.calculate_nav_with_all_data` (`nav_calculator.py`
lines 70–105): when `gold_spot` is absent, compute `calculate_nav(0)`;
otherwise feed `gold_spot.get('current_price', 0)`. The `data_sources`
update only adds display fields read by no consumer in the pipeline and
is omitted from the modelled result. -/
def calculate_nav_with_all_data (now : ℕ) (market_data : MarketData) :
    NavResult :=
  match market_data.gold_spot with
  | none => calculate_nav now (some 0)
  | some d => calculate_nav now (some (d.getD "current_price" 0))

/-- `NAVCalculator.format_nav_for_display` (`nav_calculator.py`
lines 107–128): keep only the `nav_value` field. -/
def format_nav_for_display (nav_result : NavResult) : Dict :=
  [("nav_value", nav_result.nav_value)]

/-! ### Source client result shapes -/

/-- Outcome of one source-client call as seen by `collect_all_data`:
the call returns a dict, returns a non-dict value (an error string or
`None`), or raises an exception. -/
inductive FetchResult where
  | ok : Dict → FetchResult
  | notDict : FetchResult
  | exn : FetchResult
  deriving DecidableEq

/-- The four client calls of one cycle (`data_collector.py` lines 47, 65,
75, 85): domestic gold ETF, US gold futures, domestic gold spot, USD/KRW. -/
structure Fetches where
  domestic : FetchResult
  us_futures : FetchResult
  gold_spot : FetchResult
  usd_krw : FetchResult
  deriving DecidableEq

/-- `KoreanInvestmentGoldAPI.get_gold_411060_data` result skeleton
(`korean_investment_gold.py` lines 138–145): every price/volume field is
initialised to `0`; the string `timestamp` entry is never read downstream
and is omitted. -/
def gold_411060_base : Dict :=
  [("current_price", 0), ("bid_price_1", 0), ("bid_volume_1", 0),
   ("ask_price_1", 0), ("ask_volume_1", 0)]

/-- The `result.update({...})` of a successful `get_gold_411060_data` call
(`korean_investment_gold.py` lines 173–187): each field is
`float(output.get(key, 0))`, i.e. absent API fields become `0`.
`output1`/`output2` are the quote and price payloads of the API response. -/
def gold_411060_success (output1 output2 : Dict) : Dict :=
  ((((gold_411060_base.set "current_price" (output2.getD "stck_prpr" 0)).set
      "bid_price_1" (output1.getD "bidp1" 0)).set
      "bid_volume_1" (output1.getD "bidp_rsqn1" 0)).set
      "ask_price_1" (output1.getD "askp1" 0)).set
      "ask_volume_1" (output1.getD "askp_rsqn1" 0)

/-! ### Collector (`data_collector.py`) -/

/-- The value returned by `DataCollector.collect_all_data`
(`data_collector.py` lines 116–123). -/
structure Collected where
  domestic : Option Dict
  us_futures : Option Dict
  gold_spot : Option Dict
  usd_krw : Option Dict
  nav : Option Dict
  timestamp : ℕ
  deriving DecidableEq

/-- Validity filter applied to the domestic ETF result
(`data_collector.py` lines 50–54): kept iff
`current_price > 0 or bid_price_1 > 0 or ask_price_1 > 0`. -/
def keepDomestic : FetchResult → Option Dict
  | FetchResult.ok d =>
      if d.getD "current_price" 0 > 0 ∨ d.getD "bid_price_1" 0 > 0 ∨
          d.getD "ask_price_1" 0 > 0 then some d else none
  | _ => none

/-- Validity filter applied to the US futures, gold spot and USD/KRW
results (`data_collector.py` lines 66, 76, 86): kept iff
`current_price > 0`. -/
def keepCurrentPos : FetchResult → Option Dict
  | FetchResult.ok d => if d.getD "current_price" 0 > 0 then some d else none
  | _ => none

/-- `DataCollector.collect_all_data` (`data_collector.py` lines 34–123).
`now` is the collection time read at line 36; `f` carries the outcome of
the four client calls of this cycle. Each call sits in its own
`try/except`, so a raising or non-dict result leaves that source's slot
`None` and the others untouched. The NAV step never raises
(`calculate_nav_with_all_data` and `format_nav_for_display` catch
internally), so `nav` is always a dict. -/
def collect_all_data (now : ℕ) (f : Fetches) : Collected :=
  let domestic_data := keepDomestic f.domestic
  let us_futures_data := keepCurrentPos f.us_futures
  let gold_spot_data := keepCurrentPos f.gold_spot
  let usd_krw_data := keepCurrentPos f.usd_krw
  let nav_result := calculate_nav_with_all_data now
    { domestic := domestic_data, us_futures := us_futures_data
      gold_spot := gold_spot_data, usd_krw := usd_krw_data }
  { domestic := domestic_data
    us_futures := us_futures_data
    gold_spot := gold_spot_data
    usd_krw := usd_krw_data
    nav := some (format_nav_for_display nav_result)
    timestamp := now }

/-! ### Database manager (`db_manager.py`) -/

/-- A value bound to an SQL parameter: Python `None` maps to `null`,
numbers to `num`, rendered timestamps to `time` (see the header note on
clock modelling). -/
inductive SqlVal where
  | null : SqlVal
  | num : ℚ → SqlVal
  | time : ℕ → SqlVal
  deriving DecidableEq

/-- `opt v` is how a Python number-or-`None` is bound to a parameter. -/
def SqlVal.opt : Option ℚ → SqlVal
  | none => SqlVal.null
  | some q => SqlVal.num q

/-- The per-field extraction of `DatabaseManager.save_market_data`
(`db_manager.py` lines 68–92): `d.get(key) if d else None`, so a missing
source dict and a missing key both yield `None`. -/
structure ExtractedVals where
  usd_krw_rate : Option ℚ
  domestic_current : Option ℚ
  domestic_bid : Option ℚ
  domestic_bid_vol : Option ℚ
  domestic_ask : Option ℚ
  domestic_ask_vol : Option ℚ
  us_current : Option ℚ
  us_bid : Option ℚ
  us_bid_vol : Option ℚ
  us_ask : Option ℚ
  us_ask_vol : Option ℚ
  spot_current : Option ℚ
  spot_bid : Option ℚ
  spot_bid_vol : Option ℚ
  spot_ask : Option ℚ
  spot_ask_vol : Option ℚ
  nav_value : Option ℚ
  deriving DecidableEq

/-- `db_manager.py` lines 68–92, with the literal keys of the source:
note the US-futures keys are `bid_price`/`ask_price` etc. while the
domestic and spot keys are `bid_price_1`/`ask_price_1` etc. -/
def extractVals (domestic_data us_futures_data gold_spot_data nav_data
    usd_krw_data : Option Dict) : ExtractedVals :=
  { usd_krw_rate := usd_krw_data.bind (fun d => d.get? "current_price")
    domestic_current := domestic_data.bind (fun d => d.get? "current_price")
    domestic_bid := domestic_data.bind (fun d => d.get? "bid_price_1")
    domestic_bid_vol := domestic_data.bind (fun d => d.get? "bid_volume_1")
    domestic_ask := domestic_data.bind (fun d => d.get? "ask_price_1")
    domestic_ask_vol := domestic_data.bind (fun d => d.get? "ask_volume_1")
    us_current := us_futures_data.bind (fun d => d.get? "current_price")
    us_bid := us_futures_data.bind (fun d => d.get? "bid_price")
    us_bid_vol := us_futures_data.bind (fun d => d.get? "bid_volume")
    us_ask := us_futures_data.bind (fun d => d.get? "ask_price")
    us_ask_vol := us_futures_data.bind (fun d => d.get? "ask_volume")
    spot_current := gold_spot_data.bind (fun d => d.get? "current_price")
    spot_bid := gold_spot_data.bind (fun d => d.get? "bid_price_1")
    spot_bid_vol := gold_spot_data.bind (fun d => d.get? "bid_volume_1")
    spot_ask := gold_spot_data.bind (fun d => d.get? "ask_price_1")
    spot_ask_vol := gold_spot_data.bind (fun d => d.get? "ask_volume_1")
    nav_value := nav_data.bind (fun d => d.get? "nav_value") }

/-- The 19 values bound to the `INSERT` placeholders, in the order of the
parameter tuple of `db_manager.py` lines 106–112. `timestamp` is the
isoformat reading of line 66, `korean_time` the second-resolution
rendering of line 65. -/
def bindVals (e : ExtractedVals) (timestamp korean_time : ℕ) :
    List SqlVal :=
  [SqlVal.time timestamp, SqlVal.opt e.usd_krw_rate,
   SqlVal.opt e.domestic_current, SqlVal.opt e.domestic_bid,
   SqlVal.opt e.domestic_bid_vol, SqlVal.opt e.domestic_ask,
   SqlVal.opt e.domestic_ask_vol, SqlVal.opt e.us_current,
   SqlVal.opt e.us_bid, SqlVal.opt e.us_bid_vol, SqlVal.opt e.us_ask,
   SqlVal.opt e.us_ask_vol, SqlVal.opt e.spot_current,
   SqlVal.opt e.spot_bid, SqlVal.opt e.spot_bid_vol, SqlVal.opt e.spot_ask,
   SqlVal.opt e.spot_ask_vol, SqlVal.opt e.nav_value,
   SqlVal.time korean_time]

/-- The column list of the `INSERT INTO gold_data (...)` statement,
verbatim from `db_manager.py` lines 96–104 — `usd_krw_rate` appears twice
(positions 2 and 19), for 20 named columns. -/
def insertColumns : List String :=
  ["timestamp", "usd_krw_rate", "domestic_current_price",
   "domestic_bid_price_1", "domestic_bid_volume_1", "domestic_ask_price_1",
   "domestic_ask_volume_1", "us_futures_current_price",
   "us_futures_bid_price_1", "us_futures_bid_volume_1",
   "us_futures_ask_price_1", "us_futures_ask_volume_1",
   "domestic_gold_spot_current_price", "domestic_gold_spot_bid_price_1",
   "domestic_gold_spot_bid_volume_1", "domestic_gold_spot_ask_price_1",
   "domestic_gold_spot_ask_volume_1", "nav_value", "usd_krw_rate",
   "created_at"]

/-- Number of `?` placeholders in the `VALUES` clause of the `INSERT`
(`db_manager.py` line 105): 19. -/
def insertPlaceholders : ℕ := 19

/-- One row of the `gold_data` table: auto-increment id, the
`created_at` column (second-resolution instant, used by `ORDER BY`), and
the bound values. -/
structure Row where
  id : ℕ
  created_at : ℕ
  vals : List SqlVal
  deriving DecidableEq

/-- State of the SQLite store. `ok = false` models an environment in
which the sqlite calls raise (unwritable file, lock, corruption). -/
structure DBState where
  rows : List Row
  ok : Bool
  deriving DecidableEq

/-- `DatabaseManager.save_market_data` (`db_manager.py` lines 58–120).
`cursor.execute` succeeds only when the database is operable, the column
list has as many names as there are placeholders, and as many parameters
are supplied as there are placeholders (SQLite raises an
`OperationalError`/`ProgrammingError` otherwise); the surrounding
`try/except` turns any raise into a `False` return with no row inserted.
`timestamp`/`korean_time` are the two clock renderings made at
lines 65–66. -/
def save_market_data (timestamp korean_time : ℕ)
    (domestic_data us_futures_data gold_spot_data nav_data
      usd_krw_data : Option Dict) (db : DBState) : DBState × Bool :=
  let vals := bindVals
    (extractVals domestic_data us_futures_data gold_spot_data nav_data
      usd_krw_data) timestamp korean_time
  if db.ok ∧ insertColumns.length = insertPlaceholders ∧
      vals.length = insertPlaceholders then
    ({ db with
        rows := db.rows ++
          [{ id := db.rows.length, created_at := korean_time, vals := vals }] },
      true)
  else
    (db, false)

/-- `DatabaseManager.get_data_count` (`db_manager.py` lines 122–132):
`SELECT COUNT(*)`, with any exception mapped to `0`. -/
def get_data_count (db : DBState) : ℕ :=
  if db.ok then db.rows.length else 0

/-- Row-ordering relation of `ORDER BY created_at DESC`: non-increasing
`created_at`. -/
def createdDesc (a b : Row) : Prop := b.created_at ≤ a.created_at

instance : DecidableRel createdDesc := fun a b =>
  inferInstanceAs (Decidable (b.created_at ≤ a.created_at))

/-- `DatabaseManager.get_latest_data` (`db_manager.py` lines 134–152):
`SELECT * FROM gold_data ORDER BY created_at DESC LIMIT n`, with any
exception mapped to `[]`. SQLite leaves the relative order of rows with
equal `created_at` unspecified, so the query is modelled as a relation:
`out` is an admissible result iff it is the first `n` rows of some
reordering of the table that is sorted by non-increasing `created_at`. -/
def latestAdmissible (db : DBState) (n : ℕ) (out : List Row) : Prop :=
  if db.ok then
    ∃ perm : List Row,
      perm.Perm db.rows ∧ perm.Pairwise createdDesc ∧ out = perm.take n
  else out = []

/-! ### Orchestration of one cycle (`data_collector.py` lines 125–151) -/

/-- Outcome of `DataCollector.collect_and_save_once`: the collected data
it returns, the resulting store state, whether `save_market_data` was
invoked, and the boolean it returned when it was. -/
structure CycleOutcome where
  collected : Collected
  db : DBState
  saveCalled : Bool
  saveResult : Option Bool
  deriving DecidableEq

/-- The guard of `data_collector.py` line 131:
`any([domestic, us_futures, gold_spot, nav, usd_krw])` under Python
truthiness. -/
def anyDataGuard (c : Collected) : Bool :=
  pyTruthy c.domestic || pyTruthy c.us_futures || pyTruthy c.gold_spot ||
    pyTruthy c.nav || pyTruthy c.usd_krw

/-- `DataCollector.collect_and_save_once` (`data_collector.py`
lines 125–151): collect, then save when the guard holds; the save sits in
its own `try/except`, and `save_market_data` returns a boolean rather
than raising, so the collected data is returned in every case. -/
def collect_and_save_once (now timestamp korean_time : ℕ)
    (f : Fetches) (db : DBState) : CycleOutcome :=
  let c := collect_all_data now f
  if anyDataGuard c then
    let r := save_market_data timestamp korean_time c.domestic c.us_futures
      c.gold_spot c.nav c.usd_krw db
    { collected := c, db := r.1, saveCalled := true, saveResult := some r.2 }
  else
    { collected := c, db := db, saveCalled := false, saveResult := none }

/-! ### Timing model of one cycle and of the loop

`collect_all_data` issues the four client calls at `data_collector.py`
lines 47, 65, 75, 85 as plain sequential calls — there is no
`create_task`/`gather` and the clients use blocking `requests` I/O — so
each call begins only after the previous one has returned. The wall-clock
cost of a cycle is modelled by explicit durations. -/

/-- Wall-clock durations of the four client calls of one cycle, in the
program order of `collect_all_data`. -/
structure FetchDurations where
  domestic : ℚ
  us_futures : ℚ
  gold_spot : ℚ
  usd_krw : ℚ
  deriving DecidableEq

/-- The durations in program order. -/
def FetchDurations.toList (d : FetchDurations) : List ℚ :=
  [d.domestic, d.us_futures, d.gold_spot, d.usd_krw]

/-- Start time of the `i`-th client call relative to the start of
`collect_all_data`: the sum of the durations of the calls issued before
it (the calls are strictly sequential in the source). -/
def fetchStart (d : FetchDurations) (i : Fin 4) : ℚ :=
  (d.toList.take i).sum

/-- Completion time of the `i`-th client call. -/
def fetchFinish (d : FetchDurations) (i : Fin 4) : ℚ :=
  fetchStart d i + d.toList.get i

/-- Wall-clock work time of one cycle: the four fetch durations add up
(the in-process assembly and NAV computation are modelled as free). -/
def cycleElapsed (d : FetchDurations) : ℚ :=
  d.toList.sum

/-- Start time of cycle `n` of `start_real_time_collection`
(`data_collector.py` lines 167–182): the loop awaits
`collect_and_save_once`, then sleeps `max(0, 1.0 - elapsed)`, so cycle
`n+1` begins `max (e n) 1` after cycle `n` began, where `e n` is the work
time of cycle `n`. -/
def cycleStart (e : ℕ → ℚ) : ℕ → ℚ
  | 0 => 0
  | n + 1 => cycleStart e n + max (e n) 1

/-- Completion time of the work of cycle `n`. -/
def cycleFinish (e : ℕ → ℚ) (n : ℕ) : ℚ :=
  cycleStart e n + e n

/-! ### Concrete scenario data -/

/-- An empty, fully functional store. -/
def emptyDB : DBState := { rows := [], ok := true }

/-- A cycle in which all four client calls raise. -/
def allFail : Fetches :=
  { domestic := FetchResult.exn, us_futures := FetchResult.exn
    gold_spot := FetchResult.exn, usd_krw := FetchResult.exn }

/-- A valid domestic ETF quote dict. -/
def validDomesticDict : Dict :=
  [("current_price", 21500), ("bid_price_1", 21495), ("bid_volume_1", 10),
   ("ask_price_1", 21505), ("ask_volume_1", 12)]

/-- A gold-spot result whose prices are all zero (the client's defaults
when the venue returns no data). -/
def zeroPricesDict : Dict :=
  [("current_price", 0), ("bid_price_1", 0), ("bid_volume_1", 0),
   ("ask_price_1", 0), ("ask_volume_1", 0)]

/-- A valid USD/KRW quote dict (`yahoo_finance_simple.py` lines 45–48). -/
def validUsdDict : Dict := [("current_price", 1340)]

/-- A US-futures result whose `current_price` is `0` but whose ask price
is strictly positive. -/
def usAskOnlyDict : Dict := [("current_price", 0), ("ask_price", 100)]

/-- The fault-isolation scenario of the spec: source 1 valid, source 2
times out (raises), source 3 returns all-zero prices, source 4 valid. -/
def scenarioFetches : Fetches :=
  { domestic := FetchResult.ok validDomesticDict
    us_futures := FetchResult.exn
    gold_spot := FetchResult.ok zeroPricesDict
    usd_krw := FetchResult.ok validUsdDict }

/-- Two store rows sharing one second-resolution `created_at` value, as
produced by two cycles saving within the same wall-clock second. -/
def rowA : Row := { id := 0, created_at := 100, vals := [] }

/-- Second row with the same `created_at` as `rowA`. -/
def rowB : Row := { id := 1, created_at := 100, vals := [] }

/-- A store holding `rowA` then `rowB`, in that append order. -/
def tieDB : DBState := { rows := [rowA, rowB], ok := true }

/-- A row with a strictly later `created_at` than `rowA`. -/
def rowC : Row := { id := 2, created_at := 200, vals := [] }

/-- A store whose rows' `created_at` strictly increases with append
order. -/
def db6 : DBState := { rows := [rowA, rowC], ok := true }

/-- A store whose sqlite operations raise. -/
def failedDB : DBState := { rows := [], ok := false }

/-! ### Theorems -/

section
attribute [local semireducible] Rat.sub Rat.mul Rat.add Rat.inv

/-- Keys kept by the domestic filter, characterised. -/
theorem keepDomestic_eq_some (r : FetchResult) (d : Dict) :
    keepDomestic r = some d ↔
      r = FetchResult.ok d ∧
        (d.getD "current_price" 0 > 0 ∨ d.getD "bid_price_1" 0 > 0 ∨
          d.getD "ask_price_1" 0 > 0) := by
  cases r with
  | ok d2 =>
      by_cases h : d2.getD "current_price" 0 > 0 ∨ d2.getD "bid_price_1" 0 > 0 ∨
          d2.getD "ask_price_1" 0 > 0
      · simp only [keepDomestic, if_pos h, Option.some.injEq,
          FetchResult.ok.injEq]
        constructor
        · rintro rfl; exact ⟨rfl, h⟩
        · rintro ⟨rfl, _⟩; rfl
      · simp only [keepDomestic, if_neg h]
        constructor
        · rintro ⟨⟩
        · rintro ⟨he, hp⟩
          cases he
          exact absurd hp h
  | notDict => simp [keepDomestic]
  | exn => simp [keepDomestic]

/-- Keys kept by the `current_price > 0` filter, characterised. -/
theorem keepCurrentPos_eq_some (r : FetchResult) (d : Dict) :
    keepCurrentPos r = some d ↔
      r = FetchResult.ok d ∧ d.getD "current_price" 0 > 0 := by
  cases r with
  | ok d2 =>
      by_cases h : d2.getD "current_price" 0 > 0
      · simp only [keepCurrentPos, if_pos h, Option.some.injEq,
          FetchResult.ok.injEq]
        constructor
        · rintro rfl; exact ⟨rfl, h⟩
        · rintro ⟨rfl, _⟩; rfl
      · simp only [keepCurrentPos, if_neg h]
        constructor
        · rintro ⟨⟩
        · rintro ⟨he, hp⟩
          cases he
          exact absurd hp h
  | notDict => simp [keepCurrentPos]
  | exn => simp [keepCurrentPos]

/-- C1: the claim says a call on a writable database appends exactly one
record and returns `True`. In the code the `INSERT` names 20 columns
(`usd_krw_rate` twice) but carries only 19 placeholders/parameters, so
`cursor.execute` raises on every call, the handler returns `False`, and
the store is never changed: `save_market_data` returns `(db, false)` for
every input, writable database included. -/
theorem C1_save_market_data_always_fails (timestamp korean_time : ℕ)
    (domestic_data us_futures_data gold_spot_data nav_data
      usd_krw_data : Option Dict) (db : DBState) :
    save_market_data timestamp korean_time domestic_data us_futures_data
      gold_spot_data nav_data usd_krw_data db = (db, false) := by
  simp [save_market_data, insertColumns, insertPlaceholders]

/-- C2: the claim says that when all four sources fail and the metric is
unavailable, `save_market_data` is never invoked. In the code the NAV
step always yields the non-empty dict `{'nav_value': 0}`, which is truthy,
so the `any([...])` guard passes and `save_market_data` is invoked even on
an all-failure cycle (the store count stays unchanged only because the
broken `INSERT` makes the save fail). -/
theorem C2_empty_cycle_still_invokes_save :
    (collect_and_save_once 0 0 0 allFail emptyDB).collected.domestic = none ∧
    (collect_and_save_once 0 0 0 allFail emptyDB).collected.us_futures = none ∧
    (collect_and_save_once 0 0 0 allFail emptyDB).collected.gold_spot = none ∧
    (collect_and_save_once 0 0 0 allFail emptyDB).collected.usd_krw = none ∧
    (collect_and_save_once 0 0 0 allFail emptyDB).collected.nav =
      some [("nav_value", 0)] ∧
    (collect_and_save_once 0 0 0 allFail emptyDB).saveCalled = true ∧
    get_data_count (collect_and_save_once 0 0 0 allFail emptyDB).db = 0 := by
  decide

/-- C3 counterexample: a US-futures snapshot whose best ask price is
strictly positive but whose current price is `0` is discarded, because the
collector validates that source by `current_price > 0` alone — refuting
the claim that every source snapshot is kept iff one of the three price
fields is positive. -/
theorem C3_counterexample_us_ask_positive_discarded :
    usAskOnlyDict.getD "ask_price" 0 > 0 ∧
    (collect_all_data 0
      { domestic := FetchResult.exn
        us_futures := FetchResult.ok usAskOnlyDict
        gold_spot := FetchResult.exn
        usd_krw := FetchResult.exn }).us_futures = none := by
  decide

/-- C3 (amended): the three-field validity rule (`current_price`,
`bid_price_1`, `ask_price_1` — any one strictly positive) applies only to
the domestic ETF source; the US futures, gold spot and USD/KRW snapshots
are kept iff their `current_price` alone is strictly positive. In every
case a discarded snapshot leaves its slot `None` for the cycle. -/
theorem C3_per_source_validity (now : ℕ) (f : Fetches) (d : Dict) :
    ((collect_all_data now f).domestic = some d ↔
      f.domestic = FetchResult.ok d ∧
        (d.getD "current_price" 0 > 0 ∨ d.getD "bid_price_1" 0 > 0 ∨
          d.getD "ask_price_1" 0 > 0)) ∧
    ((collect_all_data now f).us_futures = some d ↔
      f.us_futures = FetchResult.ok d ∧ d.getD "current_price" 0 > 0) ∧
    ((collect_all_data now f).gold_spot = some d ↔
      f.gold_spot = FetchResult.ok d ∧ d.getD "current_price" 0 > 0) ∧
    ((collect_all_data now f).usd_krw = some d ↔
      f.usd_krw = FetchResult.ok d ∧ d.getD "current_price" 0 > 0) :=
  ⟨keepDomestic_eq_some f.domestic d, keepCurrentPos_eq_some f.us_futures d,
    keepCurrentPos_eq_some f.gold_spot d, keepCurrentPos_eq_some f.usd_krw d⟩

/-- C4: for a positive reference price `p`, `calculate_nav` returns
`round(p × k, 2)` with `k = 14000/100000` and the ok status; for `p ≤ 0`
or an absent price it returns `0` with the unavailable status; in
particular `155000 ↦ 21700` and `0 ↦ 0`/unavailable. -/
theorem C4_calculate_nav_formula (now : ℕ) :
    (∀ p : ℚ, 0 < p →
      (calculate_nav now (some p)).nav_value = roundTo2 (p * (14000 / 100000)) ∧
      (calculate_nav now (some p)).calculation_status = statusOk) ∧
    (∀ p : ℚ, p ≤ 0 →
      (calculate_nav now (some p)).nav_value = 0 ∧
      (calculate_nav now (some p)).calculation_status = statusUnavailable) ∧
    ((calculate_nav now none).nav_value = 0 ∧
      (calculate_nav now none).calculation_status = statusUnavailable) ∧
    (calculate_nav now (some 155000)).nav_value = 21700 ∧
    (calculate_nav now (some 0)).nav_value = 0 ∧
    (calculate_nav now (some 0)).calculation_status = statusUnavailable := by
  refine ⟨?_, ?_, ⟨rfl, rfl⟩, ?_, ?_, ?_⟩
  · intro p hp
    rw [calculate_nav]
    rw [if_neg (not_le.mpr hp)]
    exact ⟨by rw [nav_multiplier, gold_holding_per_cu, total_shares], rfl⟩
  · intro p hp
    rw [calculate_nav, if_pos hp]
    exact ⟨rfl, rfl⟩
  · rw [calculate_nav, if_neg (by norm_num : ¬ (155000:ℚ) ≤ 0)]
    show roundTo2 (155000 * nav_multiplier) = 21700
    decide
  · rw [calculate_nav, if_pos le_rfl]
  · rw [calculate_nav, if_pos le_rfl]

/-- Witness for C4 at `p = 155000`. -/
theorem C4_calculate_nav_formula_witness :
    0 < (155000:ℚ) ∧
      (calculate_nav 0 (some 155000)).nav_value =
        roundTo2 (155000 * (14000 / 100000)) ∧
      (calculate_nav 0 (some 155000)).calculation_status = statusOk :=
  ⟨by decide, ((C4_calculate_nav_formula 0).1 155000 (by decide)).1,
    ((C4_calculate_nav_formula 0).1 155000 (by decide)).2⟩

/-- C7: the fault-isolation scenario — source 1 valid, source 2 raising
(timeout), source 3 all-zero, source 4 valid — yields an aggregate holding
exactly the snapshots of sources 1 and 4, and the cycle proceeds to invoke
the store append; but, contrary to the claim's final clause, nothing is
persisted: the broken `INSERT` makes the append return `False` and the
store count stays `0`. -/
theorem C7_fault_isolation_scenario :
    (collect_and_save_once 0 0 0 scenarioFetches emptyDB).collected.domestic =
      some validDomesticDict ∧
    (collect_and_save_once 0 0 0 scenarioFetches emptyDB).collected.us_futures =
      none ∧
    (collect_and_save_once 0 0 0 scenarioFetches emptyDB).collected.gold_spot =
      none ∧
    (collect_and_save_once 0 0 0 scenarioFetches emptyDB).collected.usd_krw =
      some validUsdDict ∧
    (collect_and_save_once 0 0 0 scenarioFetches emptyDB).saveCalled = true ∧
    (collect_and_save_once 0 0 0 scenarioFetches emptyDB).saveResult =
      some false ∧
    get_data_count (collect_and_save_once 0 0 0 scenarioFetches emptyDB).db =
      0 := by
  decide

/-- C8 counterexample: two calls of `calculate_nav` with the same price
argument made at different wall-clock instants return different result
dicts — the `timestamp` field records the time of each call — refuting
"two calls with equal arguments return equal results". -/
theorem C8_counterexample_timestamp_differs :
    calculate_nav 0 (some 155000) ≠ calculate_nav 1 (some 155000) := by
  decide

/-- C8 (amended): `calculate_nav` is deterministic in its price argument
in every field except `timestamp` — the value, echoed price, formula and
status of two calls with equal arguments are equal; only the `timestamp`
field depends on the wall clock. -/
theorem C8_deterministic_except_timestamp (t1 t2 : ℕ) (p : Option ℚ) :
    (calculate_nav t1 p).nav_value = (calculate_nav t2 p).nav_value ∧
    (calculate_nav t1 p).gold_spot_price =
      (calculate_nav t2 p).gold_spot_price ∧
    (calculate_nav t1 p).calculation_formula =
      (calculate_nav t2 p).calculation_formula ∧
    (calculate_nav t1 p).calculation_status =
      (calculate_nav t2 p).calculation_status := by
  cases p with
  | none => exact ⟨rfl, rfl, rfl, rfl⟩
  | some q =>
      by_cases h : q ≤ 0 <;>
        simp [calculate_nav, h]


/-- Helper: when the gold-spot slot of a cycle is empty, the NAV step
still produces the dict `{'nav_value': 0}`. -/
theorem collect_nav_unavailable (now : ℕ) (f : Fetches)
    (h : keepCurrentPos f.gold_spot = none) :
    (collect_all_data now f).nav = some [("nav_value", 0)] := by
  show some (format_nav_for_display (calculate_nav_with_all_data now _)) = _
  rw [calculate_nav_with_all_data]
  simp only [h]
  rw [calculate_nav, if_pos le_rfl]
  rfl

/-- C5 counterexample: in a cycle where the Derived Metric is unavailable
(here: every source failed), the NAV step yields `{'nav_value': 0}` and
`save_market_data` binds the `nav_value` parameter to the number `0`, not
to null — refuting "the Derived Metric when it is unavailable is stored
as null, never as zero". A second refutation at the snapshot level: a
successful domestic-client response whose quote payload omits `bidp1`
produces `bid_price_1 = 0` in the snapshot, so that unobtained field is
bound as the number `0` as well. -/
theorem C5_counterexample_unavailable_metric_bound_zero :
    (collect_all_data 0 allFail).nav = some [("nav_value", 0)] ∧
    SqlVal.opt (extractVals (collect_all_data 0 allFail).domestic
        (collect_all_data 0 allFail).us_futures
        (collect_all_data 0 allFail).gold_spot
        (collect_all_data 0 allFail).nav
        (collect_all_data 0 allFail).usd_krw).nav_value = SqlVal.num 0 ∧
    SqlVal.num 0 ≠ SqlVal.null ∧
    (gold_411060_success [] [("stck_prpr", 21500)]).get? "bid_price_1" =
      some 0 := by
  decide

/-- C5 (amended): in the record bound for insertion, every field of every
source absent from the cycle is bound as null, and every key missing from
a present source dict is bound as null; but the Derived Metric is always
bound as a number — `0` when it is unavailable (in the pipeline, exactly
the cycles whose gold-spot slot is empty) — because the NAV step always
emits `{'nav_value': v}`; and fields the client itself defaulted to `0`
inside a present snapshot are bound as `0`. (Independently, no record is
ever actually persisted; see C1.) -/
theorem C5_null_and_zero_binding (dom us spot nav usd : Option Dict)
    (now : ℕ) (f : Fetches) :
    (dom = none →
      (extractVals dom us spot nav usd).domestic_current = none ∧
      (extractVals dom us spot nav usd).domestic_bid = none ∧
      (extractVals dom us spot nav usd).domestic_bid_vol = none ∧
      (extractVals dom us spot nav usd).domestic_ask = none ∧
      (extractVals dom us spot nav usd).domestic_ask_vol = none) ∧
    (us = none →
      (extractVals dom us spot nav usd).us_current = none ∧
      (extractVals dom us spot nav usd).us_bid = none ∧
      (extractVals dom us spot nav usd).us_bid_vol = none ∧
      (extractVals dom us spot nav usd).us_ask = none ∧
      (extractVals dom us spot nav usd).us_ask_vol = none) ∧
    (spot = none →
      (extractVals dom us spot nav usd).spot_current = none ∧
      (extractVals dom us spot nav usd).spot_bid = none ∧
      (extractVals dom us spot nav usd).spot_bid_vol = none ∧
      (extractVals dom us spot nav usd).spot_ask = none ∧
      (extractVals dom us spot nav usd).spot_ask_vol = none) ∧
    (usd = none → (extractVals dom us spot nav usd).usd_krw_rate = none) ∧
    (nav = none → (extractVals dom us spot nav usd).nav_value = none) ∧
    (∀ d : Dict, dom = some d →
      (d.get? "current_price" = none →
        (extractVals dom us spot nav usd).domestic_current = none) ∧
      (d.get? "bid_price_1" = none →
        (extractVals dom us spot nav usd).domestic_bid = none) ∧
      (d.get? "bid_volume_1" = none →
        (extractVals dom us spot nav usd).domestic_bid_vol = none) ∧
      (d.get? "ask_price_1" = none →
        (extractVals dom us spot nav usd).domestic_ask = none) ∧
      (d.get? "ask_volume_1" = none →
        (extractVals dom us spot nav usd).domestic_ask_vol = none)) ∧
    (∀ d : Dict, us = some d →
      (d.get? "current_price" = none →
        (extractVals dom us spot nav usd).us_current = none) ∧
      (d.get? "bid_price" = none →
        (extractVals dom us spot nav usd).us_bid = none) ∧
      (d.get? "bid_volume" = none →
        (extractVals dom us spot nav usd).us_bid_vol = none) ∧
      (d.get? "ask_price" = none →
        (extractVals dom us spot nav usd).us_ask = none) ∧
      (d.get? "ask_volume" = none →
        (extractVals dom us spot nav usd).us_ask_vol = none)) ∧
    (∀ d : Dict, spot = some d →
      (d.get? "current_price" = none →
        (extractVals dom us spot nav usd).spot_current = none) ∧
      (d.get? "bid_price_1" = none →
        (extractVals dom us spot nav usd).spot_bid = none) ∧
      (d.get? "bid_volume_1" = none →
        (extractVals dom us spot nav usd).spot_bid_vol = none) ∧
      (d.get? "ask_price_1" = none →
        (extractVals dom us spot nav usd).spot_ask = none) ∧
      (d.get? "ask_volume_1" = none →
        (extractVals dom us spot nav usd).spot_ask_vol = none)) ∧
    (∀ d : Dict, usd = some d →
      d.get? "current_price" = none →
        (extractVals dom us spot nav usd).usd_krw_rate = none) ∧
    (∃ q : ℚ, SqlVal.opt (extractVals (collect_all_data now f).domestic
        (collect_all_data now f).us_futures
        (collect_all_data now f).gold_spot
        (collect_all_data now f).nav
        (collect_all_data now f).usd_krw).nav_value = SqlVal.num q) ∧
    ((collect_all_data now f).gold_spot = none →
      SqlVal.opt (extractVals (collect_all_data now f).domestic
          (collect_all_data now f).us_futures
          (collect_all_data now f).gold_spot
          (collect_all_data now f).nav
          (collect_all_data now f).usd_krw).nav_value = SqlVal.num 0) := by
  refine ⟨?_, ?_, ?_, ?_, ?_, ?_, ?_, ?_, ?_, ?_, ?_⟩
  · rintro rfl
    exact ⟨rfl, rfl, rfl, rfl, rfl⟩
  · rintro rfl
    exact ⟨rfl, rfl, rfl, rfl, rfl⟩
  · rintro rfl
    exact ⟨rfl, rfl, rfl, rfl, rfl⟩
  · rintro rfl
    rfl
  · rintro rfl
    rfl
  · rintro d rfl
    exact ⟨fun h => h, fun h => h, fun h => h, fun h => h, fun h => h⟩
  · rintro d rfl
    exact ⟨fun h => h, fun h => h, fun h => h, fun h => h, fun h => h⟩
  · rintro d rfl
    exact ⟨fun h => h, fun h => h, fun h => h, fun h => h, fun h => h⟩
  · rintro d rfl h
    exact h
  · exact ⟨(calculate_nav_with_all_data now
      { domestic := keepDomestic f.domestic
        us_futures := keepCurrentPos f.us_futures
        gold_spot := keepCurrentPos f.gold_spot
        usd_krw := keepCurrentPos f.usd_krw }).nav_value, rfl⟩
  · intro h
    have hnav := collect_nav_unavailable now f h
    show SqlVal.opt ((collect_all_data now f).nav.bind
      (fun d => d.get? "nav_value")) = SqlVal.num 0
    rw [hnav]
    rfl

/-- Witness for C5: an absent source's field and a missing key of a
present source both bound null, and the all-failure cycle's metric bound
as the number `0`. -/
theorem C5_null_and_zero_binding_witness :
    (extractVals none none none none none).domestic_current = none ∧
    (extractVals none (some [("current_price", 5)]) none none
      none).us_bid = none ∧
    SqlVal.opt (extractVals (collect_all_data 0 allFail).domestic
        (collect_all_data 0 allFail).us_futures
        (collect_all_data 0 allFail).gold_spot
        (collect_all_data 0 allFail).nav
        (collect_all_data 0 allFail).usd_krw).nav_value = SqlVal.num 0 :=
  ⟨((C5_null_and_zero_binding none none none none none 0 allFail).1 rfl).1,
    ((C5_null_and_zero_binding none (some [("current_price", 5)]) none none
        none 0 allFail).2.2.2.2.2.2.1 [("current_price", 5)] rfl).2.1
      (by decide),
    (C5_null_and_zero_binding none none none none none 0
      allFail).2.2.2.2.2.2.2.2.2.2 rfl⟩


/-- Uniqueness of a sorted permutation when the reference list is sorted
strictly: a non-increasing arrangement of rows that is a permutation of a
strictly decreasing list is that list itself. -/
theorem perm_sorted_strict_unique (m : List Row) :
    ∀ l : List Row, l.Perm m → l.Pairwise createdDesc →
      m.Pairwise (fun a b => b.created_at < a.created_at) → l = m := by
  induction m with
  | nil =>
      intro l hp _ _
      exact hp.eq_nil
  | cons b m2 ih =>
      intro l hp hl hm
      cases l with
      | nil =>
          have := hp.length_eq
          simp at this
      | cons a l2 =>
          have hab : a = b := by
            by_contra hne
            have ha : a ∈ b :: m2 := hp.subset (List.mem_cons_self a l2)
            have ha2 : a ∈ m2 := by
              cases ha with
              | head => exact absurd rfl hne
              | tail _ h => exact h
            have hb : b ∈ a :: l2 := hp.symm.subset (List.mem_cons_self b m2)
            have hb2 : b ∈ l2 := by
              cases hb with
              | head => exact absurd rfl hne
              | tail _ h => exact h
            have h1 : a.created_at < b.created_at :=
              (List.pairwise_cons.mp hm).1 a ha2
            have h2 : b.created_at ≤ a.created_at :=
              (List.pairwise_cons.mp hl).1 b hb2
            exact absurd h1 (not_lt.mpr h2)
          subst hab
          have hp2 : l2.Perm m2 := hp.cons_inv
          rw [ih l2 hp2 (List.pairwise_cons.mp hl).2
            (List.pairwise_cons.mp hm).2]

/-- C6 counterexample: two records appended in the same wall-clock second
share one `created_at` value; `ORDER BY created_at DESC` may then return
them in append order `[rowA, rowB]`, which differs from the claimed
reverse-append order — so `get_latest_data` does not, for every store
state, return the last records newest-first with no reordering. -/
theorem C6_counterexample_tie_not_reverse_order :
    latestAdmissible tieDB 2 [rowA, rowB] ∧
    [rowA, rowB] ≠ tieDB.rows.reverse.take 2 := by
  constructor
  · show ∃ perm : List Row,
      perm.Perm tieDB.rows ∧ perm.Pairwise createdDesc ∧
        [rowA, rowB] = perm.take 2
    exact ⟨[rowA, rowB], List.Perm.refl _, by decide, rfl⟩
  · decide

/-- C6 (amended): `get_latest_data n` always returns
`min n (count())` rows arranged by non-increasing `created_at`; when the
rows' second-resolution `created_at` values strictly increase with append
order, the result is exactly the last `min n (count())` appended records
in reverse append order. Rows appended within the same second may come
back in either relative order. -/
theorem C6_latest_data_ordering (db : DBState) (n : ℕ) (out : List Row)
    (hok : db.ok = true)
    (hsorted : db.rows.Pairwise (fun a b => a.created_at < b.created_at))
    (hadm : latestAdmissible db n out) :
    out = db.rows.reverse.take n ∧
    out.length = min n (get_data_count db) ∧
    latestAdmissible db n (db.rows.reverse.take n) := by
  have hrev : db.rows.reverse.Pairwise
      (fun a b => b.created_at < a.created_at) := by
    rw [List.pairwise_reverse]
    exact hsorted
  rw [latestAdmissible, if_pos hok] at hadm
  obtain ⟨perm, hperm, hpw, hout⟩ := hadm
  have hperm2 : perm.Perm db.rows.reverse :=
    hperm.trans (db.rows.reverse_perm).symm
  have heq : perm = db.rows.reverse :=
    perm_sorted_strict_unique _ _ hperm2 hpw hrev
  subst heq
  refine ⟨hout, ?_, ?_⟩
  · rw [hout]
    simp [get_data_count, hok, Nat.min_comm]
  · rw [latestAdmissible, if_pos hok]
    exact ⟨db.rows.reverse, db.rows.reverse_perm,
      hrev.imp (fun h => le_of_lt h), rfl⟩

/-- Witness for C6 on a two-row store with strictly increasing
`created_at`. -/
theorem C6_latest_data_ordering_witness :
    db6.ok = true ∧
    [rowC] = db6.rows.reverse.take 1 ∧
    [rowC].length = min 1 (get_data_count db6) :=
  ⟨rfl,
    (C6_latest_data_ordering db6 1 [rowC] rfl (by decide)
      ⟨[rowC, rowA], List.Perm.swap rowA rowC [], by decide, rfl⟩).1,
    (C6_latest_data_ordering db6 1 [rowC] rfl (by decide)
      ⟨[rowC, rowA], List.Perm.swap rowA rowC [], by decide, rfl⟩).2.1⟩


/-- C9 counterexample: the four client calls are strictly sequential —
with durations `(1, 10, 1, 1)` each call starts only after the previous
one finishes, the third call is delayed to `t = 11` by the slow second
source (against `t = 1` were that source instant), and the cycle's work
time is the *sum* `13` — so a slow source adds its full latency to the
others', refuting the claimed concurrent execution. -/
theorem C9_counterexample_sequential_latency :
    fetchFinish ⟨1, 10, 1, 1⟩ 0 ≤ fetchStart ⟨1, 10, 1, 1⟩ 1 ∧
    fetchFinish ⟨1, 10, 1, 1⟩ 1 ≤ fetchStart ⟨1, 10, 1, 1⟩ 2 ∧
    fetchFinish ⟨1, 10, 1, 1⟩ 2 ≤ fetchStart ⟨1, 10, 1, 1⟩ 3 ∧
    fetchStart ⟨1, 10, 1, 1⟩ 2 = 11 ∧
    fetchStart ⟨1, 0, 1, 1⟩ 2 = 1 ∧
    cycleElapsed ⟨1, 10, 1, 1⟩ = 13 ∧
    cycleElapsed ⟨1, 10, 1, 1⟩ = cycleElapsed ⟨1, 0, 1, 1⟩ + 10 := by
  refine ⟨by decide, by decide, by decide, by decide, by decide, by decide,
    by decide⟩

/-- C9 (amended): within a cycle the four client calls execute strictly
sequentially — for nonnegative durations, every earlier call finishes
before a later one starts, and the cycle's work time is the sum of the
four durations (a slow source adds its full latency) — while the loop
itself never overlaps cycles: cycle `n+1` starts no earlier than cycle
`n`'s work finishes. -/
theorem C9_sequential_fetches_and_disjoint_cycles (d : FetchDurations)
    (e : ℕ → ℚ)
    (hd : 0 ≤ d.domestic ∧ 0 ≤ d.us_futures ∧ 0 ≤ d.gold_spot ∧
      0 ≤ d.usd_krw) :
    (∀ i j : Fin 4, i < j → fetchFinish d i ≤ fetchStart d j) ∧
    cycleElapsed d = d.domestic + d.us_futures + d.gold_spot + d.usd_krw ∧
    (∀ n : ℕ, cycleFinish e n ≤ cycleStart e (n + 1)) := by
  obtain ⟨h1, h2, h3, h4⟩ := hd
  refine ⟨?_, ?_, ?_⟩
  · intro i j hij
    fin_cases i <;> fin_cases j <;>
      simp_all [fetchFinish, fetchStart, FetchDurations.toList] <;>
      linarith
  · simp [cycleElapsed, FetchDurations.toList]
    ring
  · intro n
    have : e n ≤ max (e n) 1 := le_max_left _ _
    simp only [cycleFinish, cycleStart]
    exact add_le_add_left this (cycleStart e n)

/-- Witness for C9 at durations `(1, 10, 1, 1)` and constant per-cycle
work time `2`. -/
theorem C9_sequential_fetches_witness :
    (0 ≤ (1:ℚ) ∧ 0 ≤ (10:ℚ) ∧ 0 ≤ (1:ℚ) ∧ 0 ≤ (1:ℚ)) ∧
    cycleElapsed ⟨1, 10, 1, 1⟩ = 1 + 10 + 1 + 1 ∧
    cycleFinish (fun _ => 2) 0 ≤ cycleStart (fun _ => 2) 1 :=
  ⟨⟨by decide, by decide, by decide, by decide⟩,
    (C9_sequential_fetches_and_disjoint_cycles ⟨1, 10, 1, 1⟩ (fun _ => 2)
      ⟨by decide, by decide, by decide, by decide⟩).2.1,
    (C9_sequential_fetches_and_disjoint_cycles ⟨1, 10, 1, 1⟩ (fun _ => 2)
      ⟨by decide, by decide, by decide, by decide⟩).2.2 0⟩

/-- C10: a store state in which the sqlite queries fail is
indistinguishable from an empty store at the read interface — the count
query answers `0` and the latest-data query answers `[]`, exactly the
answers an empty functional store gives; neither read propagates the
failure. -/
theorem C10_read_failure_like_empty (db : DBState) (n : ℕ) (out : List Row)
    (hfail : db.ok = false) :
    get_data_count db = 0 ∧
    (latestAdmissible db n out ↔ out = []) ∧
    get_data_count emptyDB = 0 ∧
    (latestAdmissible emptyDB n out ↔ out = []) := by
  refine ⟨?_, ?_, rfl, ?_⟩
  · simp [get_data_count, hfail]
  · rw [latestAdmissible, if_neg (by simp [hfail])]
  · show (∃ perm : List Row,
        perm.Perm emptyDB.rows ∧ perm.Pairwise createdDesc ∧
          out = perm.take n) ↔ out = []
    constructor
    · rintro ⟨perm, hperm, _, hout⟩
      have hnil : perm = [] := hperm.eq_nil
      subst hnil
      simpa using hout
    · rintro rfl
      exact ⟨[], List.Perm.refl _, List.Pairwise.nil, by simp⟩

/-- Witness for C10 at a failed store. -/
theorem C10_read_failure_like_empty_witness :
    failedDB.ok = false ∧
    get_data_count failedDB = 0 ∧
    (latestAdmissible failedDB 1 [] ↔ ([] : List Row) = []) :=
  ⟨rfl, (C10_read_failure_like_empty failedDB 1 [] rfl).1,
    (C10_read_failure_like_empty failedDB 1 [] rfl).2.1⟩

end
